import Mathlib

/-!
Shallow embedding of the PTY lifecycle manager of Quorafind/O-Terminal
(src/src/core/pty-manager.ts, with the error taxonomy of
src/src/types/errors.ts), together with theorems settling the frozen
claims about it.

The Electron process bridge (`ElectronBridge`) is an external collaborator
of the repository (it is not part of the four source files); it is modelled
as a structure of oracles: each of its methods becomes a field, fallible
methods return `Except Unit _`.  PTY handles (`IPty`) are modelled by their
identity as natural numbers; the JavaScript `Set` of active PTYs becomes an
insertion-ordered duplicate-free list.  Mutation of the caller's options
object (TypeScript reference semantics) is modelled by returning the final
state of the options record alongside the result.
-/

deriving instance DecidableEq for Except

namespace OTerminal

/-- Terminal error types enumeration (src/src/types/errors.ts, enum
`TerminalErrorType`). -/
inductive TerminalErrorType where
  | PTY_CREATION_FAILED
  | SHELL_NOT_FOUND
  | ELECTRON_NOT_AVAILABLE
  | NODE_PTY_NOT_AVAILABLE
  | PROCESS_TERMINATED
  | VIEW_CREATION_FAILED
  deriving DecidableEq, Repr

/-- Environments are finite key/value mappings with unique keys, modelled as
association lists (JavaScript objects preserve key order). -/
abbrev EnvMap := List (String × String)

/-- Lookup of a key in an environment mapping. -/
def envGet (e : EnvMap) (k : String) : Option String :=
  match e with
  | [] => none
  | (k1, v) :: rest => if k1 = k then some v else envGet rest k

/-- Setting a key in an environment mapping: replaces in place when present
(as a JavaScript object-spread override does), appends otherwise. -/
def envSet (e : EnvMap) (k : String) (v : String) : EnvMap :=
  match e with
  | [] => [(k, v)]
  | (k1, v1) :: rest => if k1 = k then (k, v) :: rest else (k1, v1) :: envSet rest k v

/-- JavaScript `x || d` on an optional string: the default is taken both when
the value is absent and when it is the empty string (empty strings are falsy). -/
def jsOr (v : Option String) (d : String) : String :=
  match v with
  | some s => if s = "" then d else s
  | none => d

/-- Spawn request (interface `PTYOptions` of the types module; field shapes
per spec section 3: `shell` required, `args` a possibly-empty sequence,
`cwd` a path, `env` a unique-keyed mapping, `cols`/`rows` dimensions). -/
structure PTYOptions where
  shell : String
  args : List String
  cwd : String
  env : EnvMap
  cols : Nat
  rows : Nat
  deriving DecidableEq, Repr

/-- The spawn configuration record built inside `createPTY`
(`spawnOptions: Record<string, unknown>`, pty-manager.ts lines 114-128).
`useConpty` is `none` when the key is absent from the record. -/
structure SpawnConfig where
  name : String
  cols : Nat
  rows : Nat
  cwd : String
  env : EnvMap
  encoding : String
  useConpty : Option Bool
  deriving DecidableEq, Repr

/-- Settings provider interface for PTYManager (pty-manager.ts lines 14-17). -/
structure PTYSettingsProvider where
  defaultShell : String
  shellArgs : List String
  deriving DecidableEq, Repr

/-- The custom error class `TerminalPluginError` (src/src/types/errors.ts):
a typed kind, a message, an optional original low-level failure (kept as its
message string), and the `{ options }` context attached on spawn failure. -/
structure TerminalPluginError where
  type : TerminalErrorType
  message : String
  originalError : Option String
  contextOptions : Option PTYOptions
  deriving DecidableEq, Repr

/-- Oracle model of the external Electron process bridge together with the
ambient host facts `createPTY` consults directly (`fs.existsSync`,
`process.env.HOME`).  Fallible bridge methods return `Except Unit _`; a
`.error` value models the method throwing. -/
structure ElectronBridge where
  nodePtyAvailable : Bool
  validateShellSync : String → Except Unit Bool
  validateShell : String → Except Unit Bool
  getDefaultShellB : Except Unit String
  platform : String
  envVars : EnvMap
  currentWorkingDirectory : String
  fsExists : String → Bool
  envHOME : Option String
  spawn : String → List String → SpawnConfig → Except String Nat
  kill : Nat → Bool

/-- Manager state: the set of active PTY handles (`private activePTYs:
Set<IPty>`), as an insertion-ordered duplicate-free list of handle ids. -/
structure PTYManagerState where
  activePTYs : List Nat
  deriving DecidableEq, Repr

/-- JavaScript `Set.add`: appends at the end when not already present. -/
def setAdd (s : List Nat) (x : Nat) : List Nat :=
  if x ∈ s then s else s ++ [x]

/-- JavaScript `Set.delete`: removes the element. -/
def setDelete (s : List Nat) (x : Nat) : List Nat :=
  s.filter (fun y => y ≠ x)

/-- JavaScript `Set.has`. -/
def setHas (s : List Nat) (x : Nat) : Bool :=
  s.contains x

/-- Observable steps `createPTY` takes, in order: each validation consulted
and the single spawn call with the exact configuration passed to the bridge. -/
inductive Event where
  | checkedNodePty (available : Bool)
  | checkedShell (shell : String) (ok : Bool)
  | checkedCwd (cwd : String) (ex : Bool)
  | spawnCalled (shell : String) (args : List String) (config : SpawnConfig)
  deriving DecidableEq, Repr

/-- Result of one `createPTY` call: the returned handle or thrown error, the
manager state after the call, the final state of the caller's (mutable)
options record, and the trace of observable steps. -/
structure CreateOutcome where
  result : Except TerminalPluginError Nat
  state : PTYManagerState
  finalOptions : PTYOptions
  trace : List Event
  deriving DecidableEq, Repr

/-- `PTYManager.validateShellPath` (pty-manager.ts lines 345-352): delegates
to the bridge's synchronous check; an exception is caught and treated as
invalid. -/
def validateShellPath (b : ElectronBridge) (shellPath : String) : Bool :=
  match b.validateShellSync shellPath with
  | .ok v => v
  | .error _ => false

/-- `PTYManager.createPTY` (pty-manager.ts lines 44-198).  Checks the bridge
for node-pty, validates the shell, substitutes `process.env.HOME || "/"` for
a non-existent cwd (mutating the options record in place), builds the spawn
configuration with `useConpty` only on win32, spawns, and tracks the handle.
A spawn failure (never a `TerminalPluginError` itself, since the bridge's
spawn throws plain errors) is wrapped into `PTY_CREATION_FAILED` carrying
the options record as context; the typed errors of the first two validation
steps propagate unchanged through the catch block. -/
def createPTY (b : ElectronBridge) (st : PTYManagerState) (options : PTYOptions) :
    CreateOutcome :=
  if !b.nodePtyAvailable then
    { result := .error ⟨.NODE_PTY_NOT_AVAILABLE, "node-pty module is not available",
        none, none⟩,
      state := st, finalOptions := options,
      trace := [.checkedNodePty false] }
  else
    let shellExists := validateShellPath b options.shell
    if !shellExists then
      { result := .error ⟨.SHELL_NOT_FOUND, "Shell not found: " ++ options.shell,
          none, none⟩,
        state := st, finalOptions := options,
        trace := [.checkedNodePty true, .checkedShell options.shell false] }
    else
      let cwdExists := b.fsExists options.cwd
      let options1 :=
        if cwdExists then options else { options with cwd := jsOr b.envHOME "/" }
      let isWindows := b.platform = "win32"
      let spawnOptions : SpawnConfig :=
        { name := "xterm-256color", cols := options1.cols, rows := options1.rows,
          cwd := options1.cwd, env := options1.env, encoding := "utf8",
          useConpty := if isWindows then some true else none }
      let trace := [.checkedNodePty true, .checkedShell options.shell true,
        .checkedCwd options.cwd cwdExists,
        .spawnCalled options1.shell options1.args spawnOptions]
      match b.spawn options1.shell options1.args spawnOptions with
      | .ok pty =>
        { result := .ok pty,
          state := { st with activePTYs := setAdd st.activePTYs pty },
          finalOptions := options1, trace := trace }
      | .error msg =>
        { result := .error ⟨.PTY_CREATION_FAILED,
            "Failed to create PTY process: " ++ msg, some msg, some options1⟩,
          state := st, finalOptions := options1, trace := trace }

/-- `PTYManager.getActivePTYCount` (pty-manager.ts lines 327-329). -/
def getActivePTYCount (st : PTYManagerState) : Nat :=
  st.activePTYs.length

/-- Observable steps of one `destroyPTY` call, in execution order. -/
inductive DestroyEvent where
  | removedFromSet (pty : Nat)
  | killSucceeded (pty : Nat)
  | killFailedLogged (pty : Nat)
  | listenersRemoved (pty : Nat)
  deriving DecidableEq, Repr

/-- `PTYManager.destroyPTY` (pty-manager.ts lines 203-226).  An untracked
handle is a no-op.  A tracked handle is first deleted from the active set,
then killed — `pty.kill()` throwing (modelled by `b.kill pty = false`) is
caught and logged, never propagated — then its listeners are removed.  The
surrounding catch wraps failures into `PTY_CREATION_FAILED`; the set
operations and `removeAllListeners` it guards are total, so the result is
`.ok` in the model (the `Except` return type keeps the thrown-error shape of
the TypeScript signature). -/
def destroyPTY (b : ElectronBridge) (st : PTYManagerState) (pty : Nat) :
    Except TerminalPluginError Unit × PTYManagerState × List DestroyEvent :=
  if setHas st.activePTYs pty then
    let st1 : PTYManagerState := { st with activePTYs := setDelete st.activePTYs pty }
    let killEv := if b.kill pty then DestroyEvent.killSucceeded pty
      else DestroyEvent.killFailedLogged pty
    (.ok (), st1, [.removedFromSet pty, killEv, .listenersRemoved pty])
  else
    (.ok (), st, [])

/-- The `forEach` loop of `cleanup` over the snapshot of the active set:
destroys each handle in order, threading the state and collecting traces. -/
def cleanupLoop (b : ElectronBridge) (st : PTYManagerState) :
    List Nat → PTYManagerState × List DestroyEvent
  | [] => (st, [])
  | p :: rest =>
    let step := destroyPTY b st p
    let next := cleanupLoop b step.2.1 rest
    (next.1, step.2.2 ++ next.2)

/-- `PTYManager.cleanup` (pty-manager.ts lines 334-340): snapshots the active
set (`Array.from`), destroys each entry in insertion order, then clears the
set. -/
def cleanup (b : ElectronBridge) (st : PTYManagerState) :
    PTYManagerState × List DestroyEvent :=
  let run := cleanupLoop b st st.activePTYs
  ({ run.1 with activePTYs := [] }, run.2)

/-- `PTYManager.getSystemDefaultShell` (pty-manager.ts lines 256-273): asks
the bridge for the default shell; if that throws, falls back to the static
per-platform table. -/
def getSystemDefaultShell (b : ElectronBridge) : String :=
  match b.getDefaultShellB with
  | .ok s => s
  | .error _ =>
    match b.platform with
    | "win32" => "cmd.exe"
    | "darwin" => "/bin/zsh"
    | "linux" => "/bin/bash"
    | _ => "/bin/sh"

/-- The settings provider slot of the manager: `none` when no provider is
registered, `some r` when a provider is registered and calling it returns
`r` (which is itself `none` when the callback returns null). -/
abbrev SettingsSlot := Option (Option PTYSettingsProvider)

/-- `PTYManager.getDefaultShell` (pty-manager.ts lines 232-251): a
registered provider yielding a truthy (non-empty) configured shell is
validated with the bridge's synchronous check directly — with no
try/catch, so a throwing check propagates (`.error`); a valid configured
shell is returned, an invalid one falls through (after a warning) to the
system default, as does every other case. -/
def getDefaultShell (b : ElectronBridge) (sp : SettingsSlot) : Except Unit String :=
  match sp with
  | some (some settings) =>
    if settings.defaultShell ≠ "" then
      match b.validateShellSync settings.defaultShell with
      | .ok true => .ok settings.defaultShell
      | .ok false => .ok (getSystemDefaultShell b)
      | .error e => .error e
    else
      .ok (getSystemDefaultShell b)
  | _ => .ok (getSystemDefaultShell b)

/-- `PTYManager.getAlternativeShells` (pty-manager.ts lines 357-388). -/
def getAlternativeShells (b : ElectronBridge) : List String :=
  match b.platform with
  | "win32" =>
    ["powershell.exe", "cmd.exe",
     "C:\\Windows\\System32\\WindowsPowerShell\\v1.0\\powershell.exe",
     "C:\\Windows\\System32\\cmd.exe"]
  | "darwin" =>
    ["/bin/zsh", "/bin/bash", "/bin/sh", "/usr/local/bin/zsh", "/usr/local/bin/bash"]
  | "linux" =>
    ["/bin/bash", "/bin/sh", "/bin/zsh", "/usr/bin/bash", "/usr/bin/sh", "/usr/bin/zsh"]
  | _ => ["/bin/sh"]

/-- The candidate loop of `findAvailableShell`: probes each shell with the
bridge's asynchronous check, returning the first that validates together
with the list of candidates actually probed, in order.  A check that
returns false or throws is skipped (`continue`). -/
def findShellLoop (b : ElectronBridge) : List String → Option String × List String
  | [] => (none, [])
  | s :: rest =>
    match b.validateShell s with
    | .ok true => (some s, [s])
    | _ =>
      let next := findShellLoop b rest
      (next.1, s :: next.2)

/-- `PTYManager.findAvailableShell` (pty-manager.ts lines 393-409): probes
`getAlternativeShells()` strictly in order, returns the first validating
candidate, and falls back to `getDefaultShell()` when none validates.  The
second component records which candidates were probed. -/
def findAvailableShell (b : ElectronBridge) (sp : SettingsSlot) :
    Except Unit String × List String :=
  match findShellLoop b (getAlternativeShells b) with
  | (some s, probed) => (.ok s, probed)
  | (none, probed) => (getDefaultShell b sp, probed)

/-- The UTF-8 environment built inside `getDefaultOptions` (pty-manager.ts
lines 283-295): the base environment with `LANG`, `LC_ALL`, `LC_CTYPE`
overridden by `baseEnv.X || "zh_CN.UTF-8"`, plus `CHCP`/`PYTHONIOENCODING`
forced on win32. -/
def getDefaultOptionsEnv (b : ElectronBridge) : EnvMap :=
  let baseEnv := b.envVars
  let e1 := envSet baseEnv "LANG" (jsOr (envGet baseEnv "LANG") "zh_CN.UTF-8")
  let e2 := envSet e1 "LC_ALL" (jsOr (envGet baseEnv "LC_ALL") "zh_CN.UTF-8")
  let e3 := envSet e2 "LC_CTYPE" (jsOr (envGet baseEnv "LC_CTYPE") "zh_CN.UTF-8")
  if b.platform = "win32" then
    envSet (envSet e3 "CHCP" "65001") "PYTHONIOENCODING" "utf-8"
  else
    e3

/-- Modelled from the spec: the process-wide default terminal dimensions
constant `DEFAULT_TERMINAL_DIMENSIONS` lives in `@/constants`, which is not
among the source files; the spec only calls it "the process-wide default
terminal dimensions constant", so its value is fixed arbitrarily here. -/
def DEFAULT_TERMINAL_DIMENSIONS : Nat × Nat := (80, 24)

/-- `PTYManager.getDefaultOptions` (pty-manager.ts lines 278-309): composes
the resolved default shell (which may propagate a throwing synchronous
check), the configured shell args (empty when no settings), the bridge's
current working directory, the UTF-8 environment, and the default
dimensions. -/
def getDefaultOptions (b : ElectronBridge) (sp : SettingsSlot) :
    Except Unit PTYOptions :=
  match getDefaultShell b sp with
  | .error e => .error e
  | .ok shell =>
    let shellArgs :=
      match sp with
      | some (some settings) => settings.shellArgs
      | _ => []
    .ok { shell := shell
          args := shellArgs
          cwd := b.currentWorkingDirectory
          env := getDefaultOptionsEnv b
          cols := DEFAULT_TERMINAL_DIMENSIONS.1
          rows := DEFAULT_TERMINAL_DIMENSIONS.2 }

/-- Projection of a destroy trace onto the handles removed from the active
set, in order. -/
def removedHandles (evs : List DestroyEvent) : List Nat :=
  evs.filterMap (fun e =>
    match e with
    | .removedFromSet p => some p
    | _ => none)

/- Helper lemmas about the environment-map and set operations. -/

theorem envGet_envSet_self (e : EnvMap) (k v : String) :
    envGet (envSet e k v) k = some v := by
  induction e with
  | nil => simp [envSet, envGet]
  | cons hd tl ih =>
    obtain ⟨k1, v1⟩ := hd
    by_cases h : k1 = k
    · simp [envSet, envGet, h]
    · simp [envSet, envGet, h, ih]

theorem envGet_envSet_ne (e : EnvMap) (k k2 v : String) (h : k ≠ k2) :
    envGet (envSet e k v) k2 = envGet e k2 := by
  induction e with
  | nil => simp [envSet, envGet, h]
  | cons hd tl ih =>
    obtain ⟨k1, v1⟩ := hd
    by_cases h1 : k1 = k
    · subst h1
      simp [envSet, envGet, h]
    · simp [envSet, envGet, h1, ih]

theorem setHas_setDelete_self (s : List Nat) (x : Nat) :
    setHas (setDelete s x) x = false := by
  simp [setHas, setDelete]

theorem mem_setDelete_of_mem_ne (s : List Nat) (x y : Nat) (hm : y ∈ s) (hne : y ≠ x) :
    y ∈ setDelete s x := by
  simp [setDelete, hm, hne]

/- Shared concrete inputs for the witness theorems. -/

/-- Baseline concrete bridge: everything available and valid, Linux
platform. -/
def sampleBridge : ElectronBridge :=
  { nodePtyAvailable := true
    validateShellSync := fun _ => .ok true
    validateShell := fun _ => .ok true
    getDefaultShellB := .ok "/bin/bash"
    platform := "linux"
    envVars := []
    currentWorkingDirectory := "/home/user"
    fsExists := fun _ => true
    envHOME := some "/home/user"
    spawn := fun _ _ _ => .ok 7
    kill := fun _ => true }

/-- Baseline concrete spawn request. -/
def sampleOptions : PTYOptions :=
  { shell := "/bin/bash", args := [], cwd := "/home/user", env := [],
    cols := 80, rows := 24 }

/-- C1: `createPTY` validates fail-fast in a fixed order: an unavailable
bridge raises `NODE_PTY_NOT_AVAILABLE` with a trace showing the shell was
never checked; with the bridge available, an invalid shell raises
`SHELL_NOT_FOUND` with a trace showing no later validation step (cwd check,
spawn) ran. -/
theorem createPTY_validation_order (b : ElectronBridge) (st : PTYManagerState)
    (options : PTYOptions) :
    (b.nodePtyAvailable = false →
      (createPTY b st options).result =
        .error ⟨.NODE_PTY_NOT_AVAILABLE, "node-pty module is not available",
          none, none⟩ ∧
      (createPTY b st options).trace = [.checkedNodePty false]) ∧
    (b.nodePtyAvailable = true → validateShellPath b options.shell = false →
      (createPTY b st options).result =
        .error ⟨.SHELL_NOT_FOUND, "Shell not found: " ++ options.shell,
          none, none⟩ ∧
      (createPTY b st options).trace =
        [.checkedNodePty true, .checkedShell options.shell false]) := by
  constructor
  · intro h
    simp [createPTY, h]
  · intro h hs
    simp [createPTY, h, hs]

/-- Witness for C1: an unavailable bridge yields `NODE_PTY_NOT_AVAILABLE`
and never checks the shell; an available bridge with a failing shell check
yields `SHELL_NOT_FOUND`. -/
theorem createPTY_validation_order_witness :
    ((createPTY { sampleBridge with nodePtyAvailable := false } ⟨[]⟩
        sampleOptions).result =
      .error ⟨.NODE_PTY_NOT_AVAILABLE, "node-pty module is not available",
        none, none⟩ ∧
     (createPTY { sampleBridge with nodePtyAvailable := false } ⟨[]⟩
        sampleOptions).trace = [.checkedNodePty false]) ∧
    ((createPTY { sampleBridge with validateShellSync := fun _ => .ok false } ⟨[]⟩
        sampleOptions).result =
      .error ⟨.SHELL_NOT_FOUND, "Shell not found: /bin/bash", none, none⟩ ∧
     (createPTY { sampleBridge with validateShellSync := fun _ => .ok false } ⟨[]⟩
        sampleOptions).trace =
       [.checkedNodePty true, .checkedShell "/bin/bash" false]) :=
  ⟨(createPTY_validation_order _ ⟨[]⟩ sampleOptions).1 rfl,
   (createPTY_validation_order _ ⟨[]⟩ sampleOptions).2 rfl rfl⟩

/-- C2: with the bridge available, a shell failing the validity check makes
`createPTY` raise `SHELL_NOT_FOUND`, and the active set is untouched: the
state is returned unchanged and the count is stable. -/
theorem createPTY_shellNotFound_state_unchanged (b : ElectronBridge)
    (st : PTYManagerState) (options : PTYOptions)
    (hav : b.nodePtyAvailable = true)
    (hsh : validateShellPath b options.shell = false) :
    (∃ e : TerminalPluginError, (createPTY b st options).result = .error e ∧
       e.type = .SHELL_NOT_FOUND) ∧
    (createPTY b st options).state = st ∧
    getActivePTYCount (createPTY b st options).state = getActivePTYCount st := by
  refine ⟨⟨⟨.SHELL_NOT_FOUND, "Shell not found: " ++ options.shell, none, none⟩,
    ?_, rfl⟩, ?_, ?_⟩ <;>
  simp [createPTY, hav, hsh]

/-- Witness for C2: a concrete failing shell check leaves a two-element
active set at count 2 and reports `SHELL_NOT_FOUND`. -/
theorem createPTY_shellNotFound_state_unchanged_witness :
    (∃ e : TerminalPluginError,
       (createPTY { sampleBridge with validateShellSync := fun _ => .ok false }
          ⟨[3, 5]⟩ sampleOptions).result = .error e ∧
       e.type = .SHELL_NOT_FOUND) ∧
    (createPTY { sampleBridge with validateShellSync := fun _ => .ok false }
       ⟨[3, 5]⟩ sampleOptions).state = ⟨[3, 5]⟩ ∧
    getActivePTYCount
      (createPTY { sampleBridge with validateShellSync := fun _ => .ok false }
         ⟨[3, 5]⟩ sampleOptions).state = getActivePTYCount ⟨[3, 5]⟩ :=
  createPTY_shellNotFound_state_unchanged _ ⟨[3, 5]⟩ sampleOptions rfl rfl

theorem destroyPTY_untracked (b : ElectronBridge) (st : PTYManagerState)
    (pty : Nat) (h : setHas st.activePTYs pty = false) :
    destroyPTY b st pty = (.ok (), st, []) := by
  simp [destroyPTY, h]

theorem destroyPTY_tracked (b : ElectronBridge) (st : PTYManagerState)
    (pty : Nat) (h : setHas st.activePTYs pty = true) :
    destroyPTY b st pty =
      (.ok (), ⟨setDelete st.activePTYs pty⟩,
       [.removedFromSet pty,
        if b.kill pty then .killSucceeded pty else .killFailedLogged pty,
        .listenersRemoved pty]) := by
  simp [destroyPTY, h]

/-- C6: `destroyPTY` on an untracked handle is a no-op that never raises
and leaves the state (hence the count) unchanged; on a tracked handle it
removes the handle from the active set before requesting termination (the
removal event leads the trace), a kill failure is logged but the call still
returns normally, and a second call on the same handle is a no-op. -/
theorem destroyPTY_idempotent (b : ElectronBridge) (st : PTYManagerState)
    (pty : Nat) :
    (setHas st.activePTYs pty = false →
       destroyPTY b st pty = (.ok (), st, [])) ∧
    (setHas st.activePTYs pty = true →
       (destroyPTY b st pty).1 = .ok () ∧
       (destroyPTY b st pty).2.1.activePTYs = setDelete st.activePTYs pty ∧
       (destroyPTY b st pty).2.2 =
         [.removedFromSet pty,
          if b.kill pty then .killSucceeded pty else .killFailedLogged pty,
          .listenersRemoved pty] ∧
       destroyPTY b (destroyPTY b st pty).2.1 pty =
         (.ok (), (destroyPTY b st pty).2.1, [])) := by
  constructor
  · exact destroyPTY_untracked b st pty
  · intro h
    rw [destroyPTY_tracked b st pty h]
    refine ⟨rfl, rfl, rfl, ?_⟩
    exact destroyPTY_untracked b _ pty (setHas_setDelete_self _ _)

/-- Witness for C6: destroying an untracked handle is a no-op; destroying a
tracked handle whose kill fails still returns normally, removes the handle
first, and a repeated destroy is a no-op. -/
theorem destroyPTY_idempotent_witness :
    (destroyPTY sampleBridge ⟨[3, 5]⟩ 9 = (.ok (), ⟨[3, 5]⟩, [])) ∧
    ((destroyPTY { sampleBridge with kill := fun _ => false } ⟨[3, 5]⟩ 3).1 =
       .ok () ∧
     (destroyPTY { sampleBridge with kill := fun _ => false } ⟨[3, 5]⟩ 3).2.1.activePTYs =
       setDelete [3, 5] 3 ∧
     (destroyPTY { sampleBridge with kill := fun _ => false } ⟨[3, 5]⟩ 3).2.2 =
       [.removedFromSet 3,
        if ({ sampleBridge with kill := fun _ => false } : ElectronBridge).kill 3 then
          .killSucceeded 3 else .killFailedLogged 3,
        .listenersRemoved 3] ∧
     destroyPTY { sampleBridge with kill := fun _ => false }
       (destroyPTY { sampleBridge with kill := fun _ => false } ⟨[3, 5]⟩ 3).2.1 3 =
       (.ok (),
        (destroyPTY { sampleBridge with kill := fun _ => false } ⟨[3, 5]⟩ 3).2.1,
        [])) :=
  ⟨(destroyPTY_idempotent sampleBridge ⟨[3, 5]⟩ 9).1 (by decide),
   (destroyPTY_idempotent { sampleBridge with kill := fun _ => false }
     ⟨[3, 5]⟩ 3).2 (by decide)⟩

theorem removedHandles_append (a c : List DestroyEvent) :
    removedHandles (a ++ c) = removedHandles a ++ removedHandles c := by
  simp [removedHandles]

theorem cleanupLoop_cons (b : ElectronBridge) (st : PTYManagerState)
    (p : Nat) (rest : List Nat) :
    cleanupLoop b st (p :: rest) =
      ((cleanupLoop b (destroyPTY b st p).2.1 rest).1,
       (destroyPTY b st p).2.2 ++ (cleanupLoop b (destroyPTY b st p).2.1 rest).2) :=
  rfl

/-- Invariant of the cleanup loop: on a duplicate-free snapshot whose
entries are all tracked, every entry is removed from the active set in
snapshot order and gets exactly one kill attempt (successful or logged as
failed), regardless of kill outcomes. -/
theorem cleanupLoop_destroys_each (b : ElectronBridge) :
    ∀ (todo : List Nat) (st : PTYManagerState),
      todo.Nodup → (∀ p ∈ todo, p ∈ st.activePTYs) →
      removedHandles (cleanupLoop b st todo).2 = todo ∧
      (∀ p ∈ todo,
        DestroyEvent.killSucceeded p ∈ (cleanupLoop b st todo).2 ∨
        DestroyEvent.killFailedLogged p ∈ (cleanupLoop b st todo).2) := by
  intro todo
  induction todo with
  | nil =>
    intro st _ _
    simp [cleanupLoop, removedHandles]
  | cons p rest ih =>
    intro st hnd hmem
    have hp : p ∈ st.activePTYs := hmem p (by simp)
    have hhas : setHas st.activePTYs p = true := by
      simp [setHas, hp]
    have hnotin : p ∉ rest := (List.nodup_cons.mp hnd).1
    have hndrest : rest.Nodup := (List.nodup_cons.mp hnd).2
    have hdestroy := destroyPTY_tracked b st p hhas
    have hst1 : (destroyPTY b st p).2.1 = ⟨setDelete st.activePTYs p⟩ := by
      rw [hdestroy]
    have hevs : (destroyPTY b st p).2.2 =
        [.removedFromSet p,
         if b.kill p then .killSucceeded p else .killFailedLogged p,
         .listenersRemoved p] := by
      rw [hdestroy]
    have hmemrest : ∀ q ∈ rest, q ∈ setDelete st.activePTYs p := by
      intro q hq
      have hqne : q ≠ p := fun hqp => hnotin (hqp ▸ hq)
      exact mem_setDelete_of_mem_ne _ _ _ (hmem q (by simp [hq])) hqne
    obtain ⟨ih1, ih2⟩ := ih ⟨setDelete st.activePTYs p⟩ hndrest hmemrest
    constructor
    · rw [cleanupLoop_cons, hst1, hevs]
      rw [removedHandles_append, ih1]
      by_cases hk : b.kill p <;> simp [removedHandles, hk]
    · intro q hq
      rcases List.mem_cons.mp hq with hq1 | hq2
      · subst hq1
        rw [cleanupLoop_cons, hst1, hevs]
        by_cases hk : b.kill q
        · left; simp [hk]
        · right; simp [hk]
      · rcases ih2 q hq2 with hcase | hcase
        · left
          rw [cleanupLoop_cons, hst1]
          exact List.mem_append_right _ hcase
        · right
          rw [cleanupLoop_cons, hst1]
          exact List.mem_append_right _ hcase

/-- C3: `cleanup` snapshots the active set, destroys each tracked handle in
insertion order (each is removed from the set and gets a kill attempt, even
when some kills fail), and leaves the count at 0. -/
theorem cleanup_empties_active_set (b : ElectronBridge) (st : PTYManagerState)
    (hnd : st.activePTYs.Nodup) :
    (cleanup b st).1.activePTYs = [] ∧
    getActivePTYCount (cleanup b st).1 = 0 ∧
    removedHandles (cleanup b st).2 = st.activePTYs ∧
    (∀ p ∈ st.activePTYs,
      DestroyEvent.killSucceeded p ∈ (cleanup b st).2 ∨
      DestroyEvent.killFailedLogged p ∈ (cleanup b st).2) := by
  obtain ⟨h1, h2⟩ := cleanupLoop_destroys_each b st.activePTYs st hnd (fun p hp => hp)
  exact ⟨rfl, rfl, h1, h2⟩

/-- Witness for C3: cleaning three tracked handles under a bridge whose
every kill fails still empties the set, removes all three in insertion
order, and logs a failed kill for each. -/
theorem cleanup_empties_active_set_witness :
    (cleanup { sampleBridge with kill := fun _ => false } ⟨[3, 5, 9]⟩).1.activePTYs
      = [] ∧
    getActivePTYCount (cleanup { sampleBridge with kill := fun _ => false }
      ⟨[3, 5, 9]⟩).1 = 0 ∧
    removedHandles (cleanup { sampleBridge with kill := fun _ => false }
      ⟨[3, 5, 9]⟩).2 = [3, 5, 9] ∧
    (∀ p ∈ ([3, 5, 9] : List Nat),
      DestroyEvent.killSucceeded p ∈
        (cleanup { sampleBridge with kill := fun _ => false } ⟨[3, 5, 9]⟩).2 ∨
      DestroyEvent.killFailedLogged p ∈
        (cleanup { sampleBridge with kill := fun _ => false } ⟨[3, 5, 9]⟩).2) :=
  cleanup_empties_active_set { sampleBridge with kill := fun _ => false }
    ⟨[3, 5, 9]⟩ (by decide)

/-- C4: with the bridge available, a valid shell, and a non-existent cwd,
`createPTY` raises no error at all (assuming the spawn succeeds): it
substitutes `HOME` — or `/` when `HOME` is unknown — as the working
directory of the configuration passed to spawn, and returns the spawned
handle. -/
theorem createPTY_cwd_fallback (b : ElectronBridge) (st : PTYManagerState)
    (options : PTYOptions)
    (hav : b.nodePtyAvailable = true)
    (hsh : validateShellPath b options.shell = true)
    (hcwd : b.fsExists options.cwd = false)
    (hspawn : ∀ sh args cfg, ∃ p, b.spawn sh args cfg = .ok p) :
    (∃ p, (createPTY b st options).result = .ok p) ∧
    (createPTY b st options).finalOptions.cwd = jsOr b.envHOME "/" ∧
    (∀ sh args cfg, Event.spawnCalled sh args cfg ∈ (createPTY b st options).trace →
       cfg.cwd = jsOr b.envHOME "/" ∧
       (b.envHOME = none → cfg.cwd = "/") ∧
       (∀ hm, b.envHOME = some hm → hm ≠ "" → cfg.cwd = hm)) := by
  obtain ⟨p, hp⟩ := hspawn options.shell options.args
    { name := "xterm-256color", cols := options.cols, rows := options.rows,
      cwd := jsOr b.envHOME "/", env := options.env, encoding := "utf8",
      useConpty := if b.platform = "win32" then some true else none }
  have htrace : (createPTY b st options).trace =
      [.checkedNodePty true, .checkedShell options.shell true,
       .checkedCwd options.cwd false,
       .spawnCalled options.shell options.args
         { name := "xterm-256color", cols := options.cols, rows := options.rows,
           cwd := jsOr b.envHOME "/", env := options.env, encoding := "utf8",
           useConpty := if b.platform = "win32" then some true else none }] := by
    simp [createPTY, hav, hsh, hcwd, hp]
  refine ⟨⟨p, ?_⟩, ?_, ?_⟩
  · simp [createPTY, hav, hsh, hcwd, hp]
  · simp [createPTY, hav, hsh, hcwd, hp]
  · intro sh args cfg hmem
    rw [htrace] at hmem
    simp at hmem
    obtain ⟨-, -, hcfg⟩ := hmem
    subst hcfg
    refine ⟨rfl, ?_, ?_⟩
    · intro hh
      rw [hh]
      rfl
    · intro hm hh hne
      rw [hh]
      simp [jsOr, hne]

/-- Witness for C4: a bridge whose filesystem reports every path as missing
still spawns successfully, with the caller-visible cwd rewritten to the
home directory. -/
theorem createPTY_cwd_fallback_witness :
    (∃ p, (createPTY { sampleBridge with fsExists := fun _ => false } ⟨[]⟩
       sampleOptions).result = .ok p) ∧
    (createPTY { sampleBridge with fsExists := fun _ => false } ⟨[]⟩
       sampleOptions).finalOptions.cwd = "/home/user" :=
  have t := createPTY_cwd_fallback { sampleBridge with fsExists := fun _ => false }
    ⟨[]⟩ sampleOptions rfl rfl rfl (fun _ _ _ => ⟨7, rfl⟩)
  ⟨t.1, t.2.1.trans (by decide)⟩

/-- C5: any spawn configuration `createPTY` hands to the bridge carries
`useConpty := true` when the platform is win32 and omits the flag entirely
on every other platform. -/
theorem createPTY_useConpty_windows_only (b : ElectronBridge)
    (st : PTYManagerState) (options : PTYOptions)
    (sh : String) (args : List String) (cfg : SpawnConfig)
    (hmem : Event.spawnCalled sh args cfg ∈ (createPTY b st options).trace) :
    (b.platform = "win32" → cfg.useConpty = some true) ∧
    (b.platform ≠ "win32" → cfg.useConpty = none) := by
  have hcfg : cfg.useConpty = (if b.platform = "win32" then some true else none) := by
    cases hav : b.nodePtyAvailable with
    | false => simp [createPTY, hav] at hmem
    | true =>
      cases hsh : validateShellPath b options.shell with
      | false => simp [createPTY, hav, hsh] at hmem
      | true =>
        simp only [createPTY, hav, hsh, Bool.not_true, Bool.false_eq_true,
          if_false] at hmem
        split at hmem <;>
        · simp at hmem
          obtain ⟨-, -, hc⟩ := hmem
          rw [hc]
  constructor
  · intro hw
    rw [hcfg, if_pos hw]
  · intro hw
    rw [hcfg, if_neg hw]

/-- Witness for C5: a concrete win32 spawn carries the flag, a concrete
linux spawn omits it. -/
theorem createPTY_useConpty_windows_only_witness :
    (({ name := "xterm-256color", cols := 80, rows := 24, cwd := "/home/user",
        env := [], encoding := "utf8", useConpty := some true } : SpawnConfig).useConpty
      = some true) ∧
    (({ name := "xterm-256color", cols := 80, rows := 24, cwd := "/home/user",
        env := [], encoding := "utf8", useConpty := none } : SpawnConfig).useConpty
      = none) :=
  ⟨(createPTY_useConpty_windows_only { sampleBridge with platform := "win32" } ⟨[]⟩
      sampleOptions "/bin/bash" []
      { name := "xterm-256color", cols := 80, rows := 24, cwd := "/home/user",
        env := [], encoding := "utf8", useConpty := some true }
      (by decide)).1 rfl,
   (createPTY_useConpty_windows_only sampleBridge ⟨[]⟩
      sampleOptions "/bin/bash" []
      { name := "xterm-256color", cols := 80, rows := 24, cwd := "/home/user",
        env := [], encoding := "utf8", useConpty := none }
      (by decide)).2 (by decide)⟩

/-- Counterexample for C7: `getDefaultShell` calls the bridge's synchronous
validity check directly, without the try/catch that `validateShellPath`
has; a configured non-empty shell whose check throws therefore makes
`getDefaultShell` raise, contradicting the claim's "never raises". -/
theorem getDefaultShell_raises_on_throwing_check :
    getDefaultShell { sampleBridge with validateShellSync := fun _ => .error () }
      (some (some { defaultShell := "/bin/fish", shellArgs := [] })) =
      .error () := by
  decide

/-- C7 (amended): `getDefaultShell` resolves in the fixed order — a
configured non-empty shell passing the synchronous check is returned; one
failing the check falls through to the system default; no provider, a null
provider result, or an empty configured shell also yield the system
default; and when the bridge's default-shell query throws, the system
default is the static per-platform table — and it raises only when the
synchronous check on a configured non-empty shell itself throws. -/
theorem getDefaultShell_resolution_order (b : ElectronBridge) (sp : SettingsSlot) :
    (∀ s, sp = some (some s) → s.defaultShell ≠ "" →
       b.validateShellSync s.defaultShell = .ok true →
       getDefaultShell b sp = .ok s.defaultShell) ∧
    (∀ s, sp = some (some s) → s.defaultShell ≠ "" →
       b.validateShellSync s.defaultShell = .ok false →
       getDefaultShell b sp = .ok (getSystemDefaultShell b)) ∧
    ((sp = none ∨ sp = some none ∨ ∃ s, sp = some (some s) ∧ s.defaultShell = "") →
       getDefaultShell b sp = .ok (getSystemDefaultShell b)) ∧
    (b.getDefaultShellB = .error () →
       getSystemDefaultShell b =
         (if b.platform = "win32" then "cmd.exe"
          else if b.platform = "darwin" then "/bin/zsh"
          else if b.platform = "linux" then "/bin/bash"
          else "/bin/sh")) := by
  refine ⟨?_, ?_, ?_, ?_⟩
  · intro s hsp hne hv
    subst hsp
    simp [getDefaultShell, hne, hv]
  · intro s hsp hne hv
    subst hsp
    simp [getDefaultShell, hne, hv]
  · intro hcase
    rcases hcase with h | h | ⟨s, hsp, hempty⟩
    · subst h; rfl
    · subst h; rfl
    · subst hsp
      simp [getDefaultShell, hempty]
  · intro herr
    unfold getSystemDefaultShell
    rw [herr]
    split
    · simp_all
    · split <;> simp_all

/-- Witness for C7 (amended): all four branches of the resolution order at
concrete inputs, including the per-platform static table when the bridge's
default-shell query throws. -/
theorem getDefaultShell_resolution_order_witness :
    (getDefaultShell sampleBridge
       (some (some { defaultShell := "/bin/fish", shellArgs := [] })) =
       .ok "/bin/fish") ∧
    (getDefaultShell { sampleBridge with validateShellSync := fun _ => .ok false }
       (some (some { defaultShell := "/bin/fish", shellArgs := [] })) =
       .ok (getSystemDefaultShell
         { sampleBridge with validateShellSync := fun _ => .ok false })) ∧
    (getDefaultShell sampleBridge none = .ok (getSystemDefaultShell sampleBridge)) ∧
    (getSystemDefaultShell
       { sampleBridge with getDefaultShellB := .error (), platform := "darwin" } =
       (if ({ sampleBridge with getDefaultShellB := .error (), platform := "darwin" }
            : ElectronBridge).platform = "win32" then "cmd.exe"
        else if ({ sampleBridge with getDefaultShellB := .error (), platform := "darwin" }
            : ElectronBridge).platform = "darwin" then "/bin/zsh"
        else if ({ sampleBridge with getDefaultShellB := .error (), platform := "darwin" }
            : ElectronBridge).platform = "linux" then "/bin/bash"
        else "/bin/sh")) :=
  ⟨(getDefaultShell_resolution_order sampleBridge _).1
      { defaultShell := "/bin/fish", shellArgs := [] } rfl (by decide) rfl,
   (getDefaultShell_resolution_order
      { sampleBridge with validateShellSync := fun _ => .ok false } _).2.1
      { defaultShell := "/bin/fish", shellArgs := [] } rfl (by decide) rfl,
   (getDefaultShell_resolution_order sampleBridge none).2.2.1 (Or.inl rfl),
   (getDefaultShell_resolution_order
      { sampleBridge with getDefaultShellB := .error (), platform := "darwin" }
      none).2.2.2 rfl⟩

theorem findShellLoop_skips_invalid (b : ElectronBridge) (x : String)
    (rest : List String) (hx : b.validateShell x ≠ .ok true) :
    findShellLoop b (x :: rest) =
      ((findShellLoop b rest).1, x :: (findShellLoop b rest).2) := by
  cases hv : b.validateShell x with
  | ok v =>
    cases v with
    | true => exact absurd hv hx
    | false => simp [findShellLoop, hv]
  | error e => simp [findShellLoop, hv]

theorem findShellLoop_none_of_all_invalid (b : ElectronBridge) :
    ∀ l : List String, (∀ x ∈ l, b.validateShell x ≠ .ok true) →
      findShellLoop b l = (none, l) := by
  intro l
  induction l with
  | nil => intro _; rfl
  | cons x rest ih =>
    intro hall
    rw [findShellLoop_skips_invalid b x rest (hall x (by simp))]
    rw [ih (fun y hy => hall y (by simp [hy]))]

theorem findShellLoop_first_valid (b : ElectronBridge) :
    ∀ (l1 : List String) (s : String) (l2 : List String),
      (∀ x ∈ l1, b.validateShell x ≠ .ok true) →
      b.validateShell s = .ok true →
      findShellLoop b (l1 ++ s :: l2) = (some s, l1 ++ [s]) := by
  intro l1
  induction l1 with
  | nil =>
    intro s l2 _ hs
    simp [findShellLoop, hs]
  | cons x rest ih =>
    intro s l2 hall hs
    rw [List.cons_append,
      findShellLoop_skips_invalid b x (rest ++ s :: l2) (hall x (by simp))]
    rw [ih s l2 (fun y hy => hall y (by simp [hy])) hs]
    rfl

/-- C8: `findAvailableShell` probes the platform alternatives strictly in
list order: it returns the first candidate whose asynchronous check yields
true, having probed exactly the candidates up to and including it (a
candidate whose check returns false or throws is skipped, nothing
propagates); when no candidate validates it returns `getDefaultShell()`
after probing the whole list. -/
theorem findAvailableShell_first_valid (b : ElectronBridge) (sp : SettingsSlot) :
    (∀ (l1 : List String) (s : String) (l2 : List String),
       getAlternativeShells b = l1 ++ s :: l2 →
       (∀ x ∈ l1, b.validateShell x ≠ .ok true) →
       b.validateShell s = .ok true →
       findAvailableShell b sp = (.ok s, l1 ++ [s])) ∧
    ((∀ x ∈ getAlternativeShells b, b.validateShell x ≠ .ok true) →
       findAvailableShell b sp = (getDefaultShell b sp, getAlternativeShells b)) := by
  constructor
  · intro l1 s l2 halts hinv hs
    unfold findAvailableShell
    rw [halts, findShellLoop_first_valid b l1 s l2 hinv hs]
  · intro hall
    unfold findAvailableShell
    rw [findShellLoop_none_of_all_invalid b (getAlternativeShells b) hall]

/-- Concrete asynchronous probe for the C8 witness: `/bin/bash` throws,
`/bin/sh` validates, everything else is invalid. -/
def sampleProbe : String → Except Unit Bool := fun s =>
  if s = "/bin/bash" then .error ()
  else if s = "/bin/sh" then .ok true
  else .ok false

/-- Witness for C8: on Linux with `/bin/bash` throwing and `/bin/sh` the
only validating shell, `findAvailableShell` returns `/bin/sh` and probes
exactly `[/bin/bash, /bin/sh]` — it never reaches `/bin/zsh` or the later
candidates. -/
theorem findAvailableShell_first_valid_witness :
    findAvailableShell { sampleBridge with validateShell := sampleProbe } none =
      (.ok "/bin/sh", ["/bin/bash", "/bin/sh"]) :=
  (findAvailableShell_first_valid
    { sampleBridge with validateShell := sampleProbe } none).1
    ["/bin/bash"] "/bin/sh" ["/bin/zsh", "/usr/bin/bash", "/usr/bin/sh", "/usr/bin/zsh"]
    (by decide) (by decide) (by decide)

theorem envGet_getDefaultOptionsEnv_LANG (b : ElectronBridge) :
    envGet (getDefaultOptionsEnv b) "LANG" =
      some (jsOr (envGet b.envVars "LANG") "zh_CN.UTF-8") := by
  simp only [getDefaultOptionsEnv]
  by_cases hw : b.platform = "win32"
  · rw [if_pos hw]
    rw [envGet_envSet_ne _ _ _ _ (by decide), envGet_envSet_ne _ _ _ _ (by decide),
      envGet_envSet_ne _ _ _ _ (by decide), envGet_envSet_ne _ _ _ _ (by decide),
      envGet_envSet_self]
  · rw [if_neg hw]
    rw [envGet_envSet_ne _ _ _ _ (by decide), envGet_envSet_ne _ _ _ _ (by decide),
      envGet_envSet_self]

theorem envGet_getDefaultOptionsEnv_LC_ALL (b : ElectronBridge) :
    envGet (getDefaultOptionsEnv b) "LC_ALL" =
      some (jsOr (envGet b.envVars "LC_ALL") "zh_CN.UTF-8") := by
  simp only [getDefaultOptionsEnv]
  by_cases hw : b.platform = "win32"
  · rw [if_pos hw]
    rw [envGet_envSet_ne _ _ _ _ (by decide), envGet_envSet_ne _ _ _ _ (by decide),
      envGet_envSet_ne _ _ _ _ (by decide), envGet_envSet_self]
  · rw [if_neg hw]
    rw [envGet_envSet_ne _ _ _ _ (by decide), envGet_envSet_self]

theorem envGet_getDefaultOptionsEnv_LC_CTYPE (b : ElectronBridge) :
    envGet (getDefaultOptionsEnv b) "LC_CTYPE" =
      some (jsOr (envGet b.envVars "LC_CTYPE") "zh_CN.UTF-8") := by
  simp only [getDefaultOptionsEnv]
  by_cases hw : b.platform = "win32"
  · rw [if_pos hw]
    rw [envGet_envSet_ne _ _ _ _ (by decide), envGet_envSet_ne _ _ _ _ (by decide),
      envGet_envSet_self]
  · rw [if_neg hw]
    rw [envGet_envSet_self]

/-- Counterexample for C9: the builder uses JavaScript truthiness
(`baseEnv.LANG || "zh_CN.UTF-8"`), so a base environment that defines
`LANG` as the empty string has its value replaced by the default rather
than preserved, against the claim's "preserves unchanged any value the
base environment already defines". -/
theorem getDefaultOptionsEnv_replaces_empty_LANG :
    envGet ({ sampleBridge with envVars := [("LANG", "")] }
        : ElectronBridge).envVars "LANG" = some "" ∧
    envGet (getDefaultOptionsEnv { sampleBridge with envVars := [("LANG", "")] })
        "LANG" = some "zh_CN.UTF-8" := by
  constructor
  · decide
  · decide

/-- C9 (amended): `getDefaultOptions` builds its environment by setting
each locale variable (`LANG`, `LC_ALL`, `LC_CTYPE`) to the UTF-8 default
exactly when the base environment does not supply a non-empty value for it,
preserving any non-empty base value; empty-string base values are replaced
by the default (JavaScript truthiness).  On win32 it additionally forces
`CHCP = "65001"` and `PYTHONIOENCODING = "utf-8"`; on other platforms it
leaves both exactly as in the base environment. -/
theorem getDefaultOptionsEnv_locale_overlay (b : ElectronBridge) :
    (∀ k ∈ (["LANG", "LC_ALL", "LC_CTYPE"] : List String),
       envGet (getDefaultOptionsEnv b) k =
         some (jsOr (envGet b.envVars k) "zh_CN.UTF-8") ∧
       ((envGet b.envVars k = none ∨ envGet b.envVars k = some "") →
          envGet (getDefaultOptionsEnv b) k = some "zh_CN.UTF-8") ∧
       (∀ v, envGet b.envVars k = some v → v ≠ "" →
          envGet (getDefaultOptionsEnv b) k = some v)) ∧
    (b.platform = "win32" →
       envGet (getDefaultOptionsEnv b) "CHCP" = some "65001" ∧
       envGet (getDefaultOptionsEnv b) "PYTHONIOENCODING" = some "utf-8") ∧
    (b.platform ≠ "win32" →
       envGet (getDefaultOptionsEnv b) "CHCP" = envGet b.envVars "CHCP" ∧
       envGet (getDefaultOptionsEnv b) "PYTHONIOENCODING" =
         envGet b.envVars "PYTHONIOENCODING") ∧
    (∀ sp opts, getDefaultOptions b sp = .ok opts →
       opts.env = getDefaultOptionsEnv b) := by
  refine ⟨?_, ?_, ?_, ?_⟩
  · intro k hk
    have hbase : envGet (getDefaultOptionsEnv b) k =
        some (jsOr (envGet b.envVars k) "zh_CN.UTF-8") := by
      simp at hk
      rcases hk with rfl | rfl | rfl
      · exact envGet_getDefaultOptionsEnv_LANG b
      · exact envGet_getDefaultOptionsEnv_LC_ALL b
      · exact envGet_getDefaultOptionsEnv_LC_CTYPE b
    refine ⟨hbase, ?_, ?_⟩
    · intro hcase
      rw [hbase]
      rcases hcase with h | h <;> rw [h] <;> rfl
    · intro v hv hne
      rw [hbase, hv]
      simp [jsOr, hne]
  · intro hw
    simp only [getDefaultOptionsEnv]
    rw [if_pos hw]
    constructor
    · rw [envGet_envSet_ne _ _ _ _ (by decide), envGet_envSet_self]
    · rw [envGet_envSet_self]
  · intro hw
    simp only [getDefaultOptionsEnv]
    rw [if_neg hw]
    constructor
    · rw [envGet_envSet_ne _ _ _ _ (by decide), envGet_envSet_ne _ _ _ _ (by decide),
        envGet_envSet_ne _ _ _ _ (by decide)]
    · rw [envGet_envSet_ne _ _ _ _ (by decide), envGet_envSet_ne _ _ _ _ (by decide),
        envGet_envSet_ne _ _ _ _ (by decide)]
  · intro sp opts h
    cases hgs : getDefaultShell b sp with
    | error e =>
      simp [getDefaultOptions, hgs] at h
    | ok s =>
      simp [getDefaultOptions, hgs] at h
      rw [← h]

/-- Witness for C9 (amended): a base environment defining `LANG` non-empty
keeps it, one lacking `LC_ALL` gets the default; win32 forces the code
page, linux leaves `CHCP` untouched; and `getDefaultOptions` returns
exactly this environment. -/
theorem getDefaultOptionsEnv_locale_overlay_witness :
    (envGet (getDefaultOptionsEnv
       { sampleBridge with envVars := [("LANG", "fr_FR.UTF-8")] }) "LANG" =
       some "fr_FR.UTF-8") ∧
    (envGet (getDefaultOptionsEnv
       { sampleBridge with envVars := [("LANG", "fr_FR.UTF-8")] }) "LC_ALL" =
       some "zh_CN.UTF-8") ∧
    (envGet (getDefaultOptionsEnv
       { sampleBridge with platform := "win32" }) "CHCP" = some "65001") ∧
    (envGet (getDefaultOptionsEnv sampleBridge) "CHCP" = envGet sampleBridge.envVars
       "CHCP") ∧
    (({ shell := "/bin/bash", args := [], cwd := "/home/user",
        env := [("LANG", "zh_CN.UTF-8"), ("LC_ALL", "zh_CN.UTF-8"),
                ("LC_CTYPE", "zh_CN.UTF-8")],
        cols := 80, rows := 24 } : PTYOptions).env =
       getDefaultOptionsEnv sampleBridge) := by
  refine ⟨?_, ?_, ?_, ?_, ?_⟩
  · exact ((getDefaultOptionsEnv_locale_overlay
      { sampleBridge with envVars := [("LANG", "fr_FR.UTF-8")] }).1 "LANG"
      (by decide)).2.2 "fr_FR.UTF-8" (by decide) (by decide)
  · exact ((getDefaultOptionsEnv_locale_overlay
      { sampleBridge with envVars := [("LANG", "fr_FR.UTF-8")] }).1 "LC_ALL"
      (by decide)).2.1 (Or.inl (by decide))
  · exact ((getDefaultOptionsEnv_locale_overlay
      { sampleBridge with platform := "win32" }).2.1 rfl).1
  · exact ((getDefaultOptionsEnv_locale_overlay sampleBridge).2.2.1 (by decide)).1
  · exact (getDefaultOptionsEnv_locale_overlay sampleBridge).2.2.2 none
      { shell := "/bin/bash", args := [], cwd := "/home/user",
        env := [("LANG", "zh_CN.UTF-8"), ("LC_ALL", "zh_CN.UTF-8"),
                ("LC_CTYPE", "zh_CN.UTF-8")],
        cols := 80, rows := 24 }
      (by decide)

/-- C10: when the cwd does not exist, `createPTY` rewrites the caller's
options record in place — the caller-visible final options carry the
substituted home directory even when the spawn then fails — and the thrown
`PTY_CREATION_FAILED` error's context holds that rewritten record, not the
originally supplied one. -/
theorem createPTY_error_context_carries_rewritten_options (b : ElectronBridge)
    (st : PTYManagerState) (options : PTYOptions)
    (hav : b.nodePtyAvailable = true)
    (hsh : validateShellPath b options.shell = true)
    (hcwd : b.fsExists options.cwd = false)
    (msg : String)
    (hspawn : ∀ sh args cfg, b.spawn sh args cfg = .error msg) :
    (createPTY b st options).finalOptions =
      { options with cwd := jsOr b.envHOME "/" } ∧
    (∃ e : TerminalPluginError,
       (createPTY b st options).result = .error e ∧
       e.type = .PTY_CREATION_FAILED ∧
       e.contextOptions = some { options with cwd := jsOr b.envHOME "/" } ∧
       (options.cwd ≠ jsOr b.envHOME "/" → e.contextOptions ≠ some options)) := by
  refine ⟨?_, ?_⟩
  · simp [createPTY, hav, hsh, hcwd, hspawn]
  · refine ⟨⟨.PTY_CREATION_FAILED, "Failed to create PTY process: " ++ msg,
      some msg, some { options with cwd := jsOr b.envHOME "/" }⟩, ?_, rfl, rfl, ?_⟩
    · simp [createPTY, hav, hsh, hcwd, hspawn]
    · intro hne heq
      have : ({ options with cwd := jsOr b.envHOME "/" } : PTYOptions) = options := by
        injection heq
      have hcwdeq : jsOr b.envHOME "/" = options.cwd := by
        have := congrArg PTYOptions.cwd this
        simpa using this
      exact hne hcwdeq.symm

/-- Witness for C10: a failing spawn with a missing cwd leaves the caller's
options rewritten to the home directory, and the thrown error's context
carries the rewritten options (which differ from the originals). -/
theorem createPTY_error_context_carries_rewritten_options_witness :
    ((createPTY
        { sampleBridge with fsExists := (fun _ => false), spawn := (fun _ _ _ => .error "boom") } ⟨[]⟩
        { sampleOptions with cwd := "/vanished" }).finalOptions =
      { { sampleOptions with cwd := "/vanished" } with
          cwd := jsOr (some "/home/user") "/" }) ∧
    (∃ e : TerminalPluginError,
       (createPTY
          { sampleBridge with fsExists := (fun _ => false), spawn := (fun _ _ _ => .error "boom") } ⟨[]⟩
          { sampleOptions with cwd := "/vanished" }).result = .error e ∧
       e.type = .PTY_CREATION_FAILED ∧
       e.contextOptions = some { { sampleOptions with cwd := "/vanished" } with
          cwd := jsOr (some "/home/user") "/" } ∧
       (({ sampleOptions with cwd := "/vanished" } : PTYOptions).cwd ≠
          jsOr (some "/home/user") "/" →
        e.contextOptions ≠ some { sampleOptions with cwd := "/vanished" })) :=
  createPTY_error_context_carries_rewritten_options
    { sampleBridge with fsExists := (fun _ => false), spawn := (fun _ _ _ => .error "boom") }
    ⟨[]⟩ { sampleOptions with cwd := "/vanished" } rfl rfl rfl "boom"
    (fun _ _ _ => rfl)

end OTerminal
